import Mathlib

/-!
Verification development for the Rijksmuseum harvest / normalize / enrich
pipeline.  The definitions below are shallow embeddings of the Python
source under `scripts/`: each `def` mirrors one function (or one code
path) of the source, translated line by line.  Machine floats of the
source are modelled as rationals, SQL tables as Lean lists of row
structures, and fallible code as `Option`.
-/

namespace Rijks

/-! ### Generic string helpers

Substring containment models the Python `"pat" in s` test on strings.
-/

/-- Boolean test that `pat` is a prefix of `s`, on character lists. -/
def isPrefixChars : List Char → List Char → Bool
  | [], _ => true
  | _ :: _, [] => false
  | a :: as, b :: bs => a == b && isPrefixChars as bs

/-- Boolean test that `pat` occurs contiguously inside `s`, on character lists. -/
def hasSubChars (pat : List Char) : List Char → Bool
  | [] => isPrefixChars pat []
  | b :: bs => isPrefixChars pat (b :: bs) || hasSubChars pat bs

/-- Models the Python membership test `pat in s` for strings. -/
def strContains (s pat : String) : Bool :=
  hasSubChars pat.data s.data

/-! ### P0 external-id selection (`parse_nt_file`, harvest-vocabulary-db.py 414-424)

The source loops over the `equivalents` list and, inside one iteration,
breaks on an `iconclass.org` match and then on a `wikidata.org` match;
if the loop finds nothing and the list is non-empty the first element
is used.
-/

/-- Loop body of the external-id selection: return the first equivalent
URI containing `iconclass.org` or `wikidata.org`, scanning in list order. -/
def pickLoop : List String → Option String
  | [] => none
  | eq :: rest =>
    if strContains eq "iconclass.org" then some eq
    else if strContains eq "wikidata.org" then some eq
    else pickLoop rest

/-- Models the external-id choice of `parse_nt_file`: first
iconclass-or-wikidata equivalent in list order, else the first equivalent. -/
def pickExternalId (equivalents : List String) : Option String :=
  match pickLoop equivalents with
  | some e => some e
  | none => equivalents.head?

/-- Predicate used by the selection loop: the URI contains
`iconclass.org` or `wikidata.org`. -/
def isIconOrWiki (eq : String) : Bool :=
  strContains eq "iconclass.org" || strContains eq "wikidata.org"

/-! ### Tier-2 dimension extraction (`extract_dimension_cm`, harvest-vocabulary-db.py 1012-1039) -/

/-- AAT unit URI for centimeters. -/
def AAT_UNIT_CM : String := "http://vocab.getty.edu/aat/300379098"

/-- AAT unit URI for millimeters. -/
def AAT_UNIT_MM : String := "http://vocab.getty.edu/aat/300379097"

/-- AAT unit URI for meters. -/
def AAT_UNIT_M : String := "http://vocab.getty.edu/aat/300379100"

/-- AAT dimension-type URI for height. -/
def AAT_HEIGHT : String := "http://vocab.getty.edu/aat/300055644"

/-- Museum-specific dimension-type URI for height. -/
def RM_HEIGHT : String := "https://id.rijksmuseum.nl/22011"

/-- Dimension-type URIs accepted for height (`HEIGHT_URIS`). -/
def HEIGHT_URIS : List String := [AAT_HEIGHT, RM_HEIGHT]

/-- Conversion factors from unit URI to centimeters (`UNIT_TO_CM`). -/
def UNIT_TO_CM : List (String × ℚ) :=
  [(AAT_UNIT_CM, 1), (AAT_UNIT_MM, 1/10), (AAT_UNIT_M, 100)]

/-- Models `UNIT_TO_CM.get(unit_id, 1.0)`: table lookup defaulting to `1`. -/
def unitFactor (unitId : String) : ℚ :=
  match UNIT_TO_CM.find? (fun p => p.1 == unitId) with
  | some p => p.2
  | none => 1

/-- Models `has_classification`: true when some classification id of the
entry is among the given URIs (an empty classification list yields false). -/
def hasClassification (classifiedAs : List String) (uris : List String) : Bool :=
  classifiedAs.any (fun c => uris.contains c)

/-- One JSON-LD dimension entry as consumed by `extract_dimension_cm`.
`value?` is the parsed numeric value: `none` models both a missing
`value` key and a value that `float()` rejects, since both take the
`continue` branch of the loop. -/
structure DimEntry where
  value? : Option ℚ
  classifiedAs : List String
  unitId : String
  deriving DecidableEq, Repr

/-- Models Python `round(x, 2)`: round to two decimal places. -/
def round2 (q : ℚ) : ℚ := (round (q * 100) : ℤ) / 100

/-- Models `extract_dimension_cm`: first entry with a parseable value and a
matching classification wins; its value is multiplied by the unit factor
and rounded to two decimals only when the factor differs from 1. -/
def extract_dimension_cm (dims : List DimEntry) (typeUris : List String) : Option ℚ :=
  match dims with
  | [] => none
  | d :: rest =>
    match d.value? with
    | none => extract_dimension_cm rest typeUris
    | some val =>
      if hasClassification d.classifiedAs typeUris then
        let factor := unitFactor d.unitId
        if factor ≠ 1 then some (round2 (val * factor)) else some val
      else extract_dimension_cm rest typeUris

/-! ### Tier-2 date extraction (`resolve_artwork`, harvest-vocabulary-db.py 1179-1202) -/

/-- Value of a decimal digit list, most significant first. -/
def digitsVal (l : List Char) : Nat :=
  l.foldl (fun acc c => acc * 10 + (c.toNat - 48)) 0

/-- Parse of a non-empty all-digit character list. -/
def digitsToNat? (l : List Char) : Option Nat :=
  if l ≠ [] ∧ l.all Char.isDigit then some (digitsVal l) else none

/-- Models Python `int(s)` on the year strings that occur here: an
optional sign followed by decimal digits; anything else raises and is
modelled as `none`. -/
def parseIntPy (s : String) : Option Int :=
  match s.data with
  | '-' :: rest => (digitsToNat? rest).map (fun n => -(n : Int))
  | '+' :: rest => (digitsToNat? rest).map (fun n => (n : Int))
  | l => (digitsToNat? l).map (fun n => (n : Int))

/-- Prefix of a string as a character-list slice, modelling `val[:n]`. -/
def strTake (s : String) (n : Nat) : String :=
  String.mk (s.data.take n)

/-- Test modelling `val.startswith("-")`. -/
def startsWithMinus (s : String) : Bool :=
  match s.data with
  | '-' :: _ => true
  | _ => false

/-- Models the per-key body of the timespan loop: `timespan.get(key, "")`
is checked for truthiness and length at least 4, then the year prefix
(5 characters when the value starts with a minus sign, else 4) is parsed. -/
def extractYearField (val : Option String) : Option Int :=
  match val with
  | none => none
  | some v =>
    if v ≠ "" ∧ 4 ≤ v.data.length then
      parseIntPy (if startsWithMinus v then strTake v 5 else strTake v 4)
    else none

/-- Models the date block of `resolve_artwork`: parse both timespan
bounds, then copy a present year over a missing one. -/
def extractDates (beginVal endVal : Option String) : Option Int × Option Int :=
  let de := extractYearField beginVal
  let dl := extractYearField endVal
  match de, dl with
  | some y, none => (some y, some y)
  | none, some y => (some y, some y)
  | de2, dl2 => (de2, dl2)

/-! ### Phase 4 artwork state (`run_phase4`, harvest-vocabulary-db.py 1231-1367)

An artwork row of the `artworks` table.  Machine reals (`height_cm`,
`width_cm`) are rationals, nullable SQL columns are `Option`, and the
`tier2_done` integer flag is a `Bool`.
-/

/-- Artwork row as created by Phase 1 and upgraded by Phase 4. -/
structure Artwork where
  objectNumber : String
  title : Option String
  creatorLabel : Option String
  rightsUri : Option String
  linkedArtUri : Option String
  inscriptionText : Option String
  provenanceText : Option String
  creditLine : Option String
  descriptionText : Option String
  heightCm : Option ℚ
  widthCm : Option ℚ
  narrativeText : Option String
  dateEarliest : Option Int
  dateLatest : Option Int
  titleAllText : Option String
  tier2Done : Bool
  deriving DecidableEq, Repr

/-- Tier-2 payload returned by a successful `resolve_artwork` call. -/
structure Tier2Fields where
  inscriptionText : Option String
  provenanceText : Option String
  creditLine : Option String
  descriptionText : Option String
  heightCm : Option ℚ
  widthCm : Option ℚ
  narrativeText : Option String
  dateEarliest : Option Int
  dateLatest : Option Int
  titleAllText : Option String
  deriving DecidableEq, Repr

/-- Outcome of one `resolve_artwork` call: HTTP 404 gives the
`not_found` marker dict, any other transport or HTTP error gives `None`,
and success gives the extracted field dict. -/
inductive ResolveResult where
  | notFound : ResolveResult
  | failed : ResolveResult
  | ok : Tier2Fields → ResolveResult
  deriving DecidableEq, Repr

/-- Models the Phase 1 `INSERT OR IGNORE INTO artworks ...` row: the five
harvest columns are set, every Tier-2 column takes its schema default
(`NULL`, with `tier2_done` defaulting to 0). -/
def newArtwork (objectNumber : String)
    (title creatorLabel rightsUri linkedArtUri : Option String) : Artwork :=
  { objectNumber := objectNumber
    title := title
    creatorLabel := creatorLabel
    rightsUri := rightsUri
    linkedArtUri := linkedArtUri
    inscriptionText := none
    provenanceText := none
    creditLine := none
    descriptionText := none
    heightCm := none
    widthCm := none
    narrativeText := none
    dateEarliest := none
    dateLatest := none
    titleAllText := none
    tier2Done := false }

/-- Models the pending-row predicate of the Phase 4 query
`WHERE tier2_done = 0 AND linked_art_uri IS NOT NULL AND linked_art_uri != ''`. -/
def isPending (a : Artwork) : Bool :=
  !a.tier2Done &&
    (match a.linkedArtUri with
     | some u => u != ""
     | none => false)

/-- Models the Phase 4 pending query over the whole `artworks` table. -/
def pendingQuery (rows : List Artwork) : List Artwork :=
  rows.filter isPending

/-- Models the per-future branch of `run_phase4`: a failed fetch leaves
the row untouched, a 404 runs `UPDATE artworks SET tier2_done = 1`, and a
success runs `TIER2_UPDATE_SQL`, writing the ten Tier-2 columns and
setting `tier2_done = 1`. -/
def applyResolve (a : Artwork) (r : ResolveResult) : Artwork :=
  match r with
  | .failed => a
  | .notFound => { a with tier2Done := true }
  | .ok f =>
    { a with
      inscriptionText := f.inscriptionText
      provenanceText := f.provenanceText
      creditLine := f.creditLine
      descriptionText := f.descriptionText
      heightCm := f.heightCm
      widthCm := f.widthCm
      narrativeText := f.narrativeText
      dateEarliest := f.dateEarliest
      dateLatest := f.dateLatest
      titleAllText := f.titleAllText
      tier2Done := true }

/-- All ten Tier-2 columns of the row are `NULL`. -/
def tier2FieldsNull (a : Artwork) : Prop :=
  a.inscriptionText = none ∧ a.provenanceText = none ∧ a.creditLine = none ∧
  a.descriptionText = none ∧ a.heightCm = none ∧ a.widthCm = none ∧
  a.narrativeText = none ∧ a.dateEarliest = none ∧ a.dateLatest = none ∧
  a.titleAllText = none

instance (a : Artwork) : Decidable (tier2FieldsNull a) := by
  unfold tier2FieldsNull
  infer_instance

/-- Row invariant of the `artworks` table: a row whose Tier-2 extraction
has not been observed still has all Tier-2 columns `NULL`.  It holds on
creation and is preserved by every Phase 4 write, because the only
statement touching the Tier-2 columns also sets `tier2_done = 1`. -/
def freshInv (a : Artwork) : Prop :=
  a.tier2Done = false → tier2FieldsNull a

instance (a : Artwork) : Decidable (freshInv a) := by
  unfold freshInv
  infer_instance

/-! ### OAI-PMH page fetch and checkpointing (`fetch_oai_page` 556-569, `run_phase1` 719-791) -/

/-- Backoff before retry number `attempt + 1`, modelling
`wait = 5 * (attempt + 1)`. -/
def backoffWait (attempt : Nat) : Nat := 5 * (attempt + 1)

/-- Models the `for attempt in range(3)` retry loop of `fetch_oai_page`
over a given sequence of attempt outcomes (`true` = the HTTP fetch and
parse succeed on that attempt).  Returns the index of the successful
attempt, or `none` when the final attempt raises. -/
def fetchTry (outcome : Nat → Bool) : List Nat → Option Nat
  | [] => none
  | a :: rest => if outcome a then some a else fetchTry outcome rest

/-- Models `fetch_oai_page`: at most the attempts 0, 1 and 2 are made. -/
def fetchOaiPage (outcome : Nat → Bool) : Option Nat :=
  fetchTry outcome [0, 1, 2]

/-- The `time.sleep` waits performed by `fetch_oai_page`: one wait after
each failed attempt except the last, which raises instead. -/
def fetchWaits (outcome : Nat → Bool) : List Nat :=
  if outcome 0 then []
  else if outcome 1 then [backoffWait 0]
  else [backoffWait 0, backoffWait 1]

/-- One page fetch of the Phase 1 loop: either the fetch is fatal (all
retries exhausted), or it yields a page whose optional resumption token
decides whether the loop continues. -/
inductive PageFetch where
  | fatalErr : PageFetch
  | ok : Option String → PageFetch
  deriving DecidableEq, Repr

/-- Checkpoint file contents: resumption token and page counter. -/
abbrev Checkpoint := String × Nat

/-- Models the `while url:` loop of `run_phase1`, tracking only the
checkpoint file.  A fatal fetch breaks out with the follow-up URL still
set, so the final `if CHECKPOINT_PATH.exists() and url is None: unlink()`
does not run and the checkpoint file keeps its current contents.  A page
carrying a token saves the checkpoint; a page without a token clears the
URL, ends the loop and removes the checkpoint file. -/
def runPhase1 (pages : List PageFetch) (ck : Option Checkpoint) (page : Nat) :
    Option Checkpoint :=
  match pages with
  | [] => ck
  | .fatalErr :: _ => ck
  | .ok none :: _ => none
  | .ok (some t) :: rest => runPhase1 rest (some (t, page + 1)) (page + 1)

/-! ### Embedding quantization (`embed_and_write` 243-248, `validate` 325-328, generate-embeddings-v2.py) -/

/-- Truncation toward zero, modelling the C-style cast performed by
`astype(np.int8)` on an in-range float. -/
def truncInt (q : ℚ) : ℤ :=
  if 0 ≤ q then ⌊q⌋ else ⌈q⌉

/-- Models `np.clip(x, lo, hi)` on one component. -/
def clipQ (q lo hi : ℚ) : ℚ := max lo (min q hi)

/-- Models one component of `np.clip(embs_f32 * 127, -127, 127).astype(np.int8)`. -/
def quantizeComp (x : ℚ) : ℤ :=
  truncInt (clipQ (x * 127) (-127) 127)

/-- Models the componentwise quantization of a float vector. -/
def quantize (v : List ℚ) : List ℤ :=
  v.map quantizeComp

/-- Decodes one stored int8 component back to a float as `int8 / 127`. -/
def decodeComp (q : ℤ) : ℚ := (q : ℚ) / 127

/-! ### Composite text and embedding skip (`load_artworks` 109-130, `embed_and_write` 225-240) -/

/-- Text columns of one artwork row as read by `load_artworks`. -/
structure ArtTextRow where
  artId : Int
  objectNumber : String
  titleAllText : Option String
  creatorLabel : Option String
  narrativeText : Option String
  inscriptionText : Option String
  descriptionText : Option String
  deriving DecidableEq, Repr

/-- Python truthiness filter on an optional text value: `None` and the
empty string are falsy. -/
def truthy : Option String → Option String
  | none => none
  | some s => if s == "" then none else some s

/-- Models `", ".join(subjects) if subjects else None`. -/
def subjectsValue (subjects : List String) : Option String :=
  match subjects with
  | [] => none
  | l => some (String.intercalate ", " l)

/-- The labeled field list of the composite builder, in the exact
truncation-priority order of the source. -/
def compositeFields (r : ArtTextRow) (subjects : List String) :
    List (String × Option String) :=
  [("Title", r.titleAllText),
   ("Creator", r.creatorLabel),
   ("Subjects", subjectsValue subjects),
   ("Narrative", r.narrativeText),
   ("Inscriptions", r.inscriptionText),
   ("Description", r.descriptionText)]

/-- Models
`" ".join(f"[\x7blabel\x7d] \x7bval\x7d" for label, val in fields if val)`. -/
def compositeText (r : ArtTextRow) (subjects : List String) : String :=
  String.intercalate " "
    ((compositeFields r subjects).filterMap
      (fun lv =>
        match truthy lv.2 with
        | some v => some ("[" ++ lv.1 ++ "] " ++ v)
        | none => none))

/-- Models the per-row skip logic of `embed_and_write`: a row is kept for
encoding and writing only when its id is not already embedded and its
composite text is non-empty.  The rows written to both tables are
derived exactly from the kept entries. -/
def embedSelect (batch : List (Int × String × String)) (existing : List Int) :
    List (Int × String × String) :=
  batch.filter (fun x => !(existing.contains x.1) && !(x.2.2 == ""))

/-! ### Normalizer idempotency guards (`normalize_mappings` 1481-1563, `normalize_rights` 1566-1604) -/

/-- Mapping row in the harvest-time wide shape (`TEXT` triple). -/
structure MappingRowText where
  objectNumber : String
  vocabId : String
  field : String
  deriving DecidableEq, Repr

/-- Mapping row in the normalized narrow shape (`INTEGER` triple). -/
structure MappingRowInt where
  artworkId : Int
  vocabRowid : Int
  fieldId : Int
  deriving DecidableEq, Repr

/-- Artwork surrogate data used by the normalizer. -/
structure ArtKeyRow where
  objectNumber : String
  rowid : Int
  artId : Option Int
  rightsUri : Option String
  rightsId : Option Int
  deriving DecidableEq, Repr

/-- Vocabulary surrogate data used by the normalizer. -/
structure VocabKeyRow where
  id : String
  rowid : Int
  vocabIntId : Option Int
  deriving DecidableEq, Repr

/-- The slice of the store that `normalize_mappings` and
`normalize_rights` read and write.  Column lists model the output of
`get_columns`; the two mapping-row lists hold the rows of whichever
shape the `mappings` table currently has. -/
structure Store where
  artworksCols : List String
  mappingsCols : List String
  mappingsText : List MappingRowText
  mappingsInt : List MappingRowInt
  fieldLookup : List (Int × String)
  rightsLookup : List (Int × String)
  artworks : List ArtKeyRow
  vocab : List VocabKeyRow
  deriving DecidableEq, Repr

/-- Boolean string comparison used to sort field names, modelling the
`ORDER BY field` byte order on the ASCII field names in use. -/
def strLeChars : List Char → List Char → Bool
  | [], _ => true
  | _ :: _, [] => false
  | a :: as, b :: bs =>
    if a.toNat < b.toNat then true
    else if b.toNat < a.toNat then false
    else strLeChars as bs

/-- Insertion step of the string sort. -/
def insertStr (s : String) : List String → List String
  | [] => [s]
  | t :: ts => if strLeChars s.data t.data then s :: t :: ts else t :: insertStr s ts

/-- Insertion sort on strings. -/
def sortStrings : List String → List String
  | [] => []
  | s :: ss => insertStr s (sortStrings ss)

/-- Deduplication keeping the first occurrence, modelling
`SELECT DISTINCT` in scan order. -/
def dedupKeepFirst : List String → List String
  | [] => []
  | s :: ss => s :: (dedupKeepFirst ss).filter (fun t => t != s)

/-- Models `SELECT DISTINCT field FROM mappings ORDER BY field` followed
by `INSERT INTO field_lookup (name)`: the distinct names in sorted
order, numbered from 1 by the integer primary key. -/
def buildFieldLookup (rows : List MappingRowText) : List (Int × String) :=
  ((sortStrings (dedupKeepFirst (rows.map (·.field)))).zip
      (List.range (sortStrings (dedupKeepFirst (rows.map (·.field)))).length)).map
    (fun p => ((p.2 : Int) + 1, p.1))

/-- Models the populating join of `mappings_int`: each wide row joins to
the artwork surrogate, the vocabulary surrogate and the field id; a row
whose vocabulary id has no vocabulary row is dropped (orphan drop). -/
def joinMappings (rows : List MappingRowText) (arts : List ArtKeyRow)
    (vocab : List VocabKeyRow) (fl : List (Int × String)) : List MappingRowInt :=
  rows.filterMap (fun m =>
    match arts.find? (fun a => a.objectNumber == m.objectNumber),
          vocab.find? (fun v => v.id == m.vocabId),
          fl.find? (fun f => f.2 == m.field) with
    | some a, some v, some f =>
      match a.artId, v.vocabIntId with
      | some ai, some vi => some ⟨ai, vi, f.1⟩
      | _, _ => none
    | _, _, _ => none)

/-- Models `normalize_mappings`: the guard returns the store unchanged
when the `mappings` table already has the `artwork_id` column; otherwise
surrogate id columns are added, `field_lookup` is rebuilt, the
integer-encoded table is populated by the three-way join, and the tables
are swapped so that `mappings` takes the narrow shape. -/
def normalize_mappings (s : Store) : Store :=
  if "artwork_id" ∈ s.mappingsCols then s
  else
    let s1 :=
      if "art_id" ∈ s.artworksCols then s
      else { s with
             artworksCols := s.artworksCols ++ ["art_id"]
             artworks := s.artworks.map (fun a => { a with artId := some a.rowid }) }
    let s2 :=
      if "vocab_int_id" ∈ s1.mappingsCols then s1
      else { s1 with
             vocab := s1.vocab.map (fun v => { v with vocabIntId := some v.rowid }) }
    let fl := buildFieldLookup s2.mappingsText
    let rows := joinMappings s2.mappingsText s2.artworks s2.vocab fl
    { s2 with
      fieldLookup := fl
      mappingsCols := ["artwork_id", "vocab_rowid", "field_id"]
      mappingsInt := rows
      mappingsText := [] }

/-- Models `normalize_rights`: the guard returns the store unchanged when
`artworks` already has the `rights_id` column; otherwise the lookup table
is rebuilt from the distinct non-empty rights URIs, the surrogate FK
column is filled by subquery, and the old text column is dropped. -/
def normalize_rights (s : Store) : Store :=
  if "rights_id" ∈ s.artworksCols then s
  else
    let uris := dedupKeepFirst (s.artworks.filterMap (fun a =>
      match a.rightsUri with
      | some u => if u != "" then some u else none
      | none => none))
    let rl := (uris.zip (List.range uris.length)).map (fun p => ((p.2 : Int) + 1, p.1))
    { s with
      rightsLookup := rl
      artworksCols :=
        ((s.artworksCols ++ ["rights_id"]).filter (fun c => c != "rights_uri"))
      artworks := s.artworks.map (fun a =>
        { a with
          rightsId :=
            match a.rightsUri with
            | some u => (rl.find? (fun p => p.2 == u)).map (·.1)
            | none => none
          rightsUri := none }) }

/-! ### Reconciliation scoring thresholds (`phase_3_reconciliation` 896-909, geocode_places.py) -/

/-- Scored candidate as built in phase 3c: the weighted score and the
coordinate fetched by the SPARQL validation (absent when Wikidata has no
coordinate for the entity). -/
structure ScoredCand where
  score : ℚ
  lat : Option ℚ
  deriving DecidableEq, Repr

/-- Classification outcome of one reconciled place. -/
inductive Decision where
  | accepted : Decision
  | review : Decision
  | rejected : Decision
  deriving DecidableEq, Repr

/-- Insertion step of the stable descending sort on scores: a candidate
moves past every earlier candidate with a greater-or-equal score,
modelling `scored.sort(key=..., reverse=True)` with Python sort
stability. -/
def insertDesc (c : ScoredCand) : List ScoredCand → List ScoredCand
  | [] => [c]
  | d :: ds => if d.score ≤ c.score then c :: d :: ds else d :: insertDesc c ds

/-- Stable descending sort by score. -/
def sortDesc : List ScoredCand → List ScoredCand
  | [] => []
  | c :: cs => insertDesc c (sortDesc cs)

/-- Gap to the runner-up: `top.score - scored[1].score` when a second
candidate exists, else 100. -/
def gapOf (top : ScoredCand) (rest : List ScoredCand) : ℚ :=
  match rest with
  | [] => 100
  | r :: _ => top.score - r.score

/-- Models the decision block of phase 3c on the already-sorted candidate
list: `top = scored[0]`, `gap` from the optional runner-up, then the two
threshold tests in source order. -/
def classifySorted : List ScoredCand → Decision
  | [] => .rejected
  | top :: rest =>
    let gap := gapOf top rest
    if 80 ≤ top.score ∧ top.lat.isSome ∧ 20 ≤ gap then .accepted
    else if 60 ≤ top.score ∨ (top.lat.isSome ∧ 50 ≤ top.score) then .review
    else .rejected

/-- Models phase 3c on one place with candidates: sort by descending
score, then classify.  A place with no candidates is rejected before
scoring in the source, and the empty list maps to `rejected` here too. -/
def classifyCands (cands : List ScoredCand) : Decision :=
  classifySorted (sortDesc cands)

/-- Modelled from the spec: the decision rule in the words of the spec,
taking the top score, the coordinate presence and the runner-up gap, to
be compared with `classifyCands`. -/
def classifySpec (score : ℚ) (hasCoords : Bool) (gap : ℚ) : Decision :=
  if 80 ≤ score ∧ hasCoords = true ∧ 20 ≤ gap then .accepted
  else if 60 ≤ score ∨ (50 ≤ score ∧ hasCoords = true) then .review
  else .rejected

/-! ### Geocoder write paths (`update_coords` 213-227, `update_coords_and_ids` 230-246, geocode_places.py) -/

/-- Vocabulary place row as touched by the geocoder write helpers. -/
structure PlaceRow where
  id : String
  lat : Option ℚ
  lon : Option ℚ
  externalId : Option String
  deriving DecidableEq, Repr

/-- Effect of one
`UPDATE vocabulary SET lat = ?, lon = ? WHERE id = ? AND lat IS NULL`
statement on one row. -/
def updateCoordsRow (vocabId : String) (la lo : ℚ) (r : PlaceRow) : PlaceRow :=
  if r.id = vocabId ∧ r.lat = none then { r with lat := some la, lon := some lo }
  else r

/-- Models `update_coords`: one guarded UPDATE per entry of the updates
dict, applied over the whole table. -/
def update_coords (updates : List (String × ℚ × ℚ)) (table : List PlaceRow) :
    List PlaceRow :=
  updates.foldl (fun tbl u => tbl.map (updateCoordsRow u.1 u.2.1 u.2.2)) table

/-- Effect of one
`UPDATE vocabulary SET lat = ?, lon = ?, external_id = ? WHERE id = ? AND lat IS NULL`
statement on one row. -/
def updateCoordsIdsRow (vocabId : String) (la lo : ℚ) (ext : String)
    (r : PlaceRow) : PlaceRow :=
  if r.id = vocabId ∧ r.lat = none then
    { r with lat := some la, lon := some lo, externalId := some ext }
  else r

/-- Models `update_coords_and_ids`: one guarded UPDATE per entry of the
updates dict, applied over the whole table. -/
def update_coords_and_ids (updates : List (String × ℚ × ℚ × String))
    (table : List PlaceRow) : List PlaceRow :=
  updates.foldl (fun tbl u => tbl.map (updateCoordsIdsRow u.1 u.2.1 u.2.2.1 u.2.2.2)) table

/-! ## Theorems -/

/-! ### Helper lemmas for the external-id selection -/

/-- Unfolding lemma: a head equivalent matching the loop tests is returned. -/
theorem pickLoop_cons_true (e : String) (rest : List String)
    (h : isIconOrWiki e = true) : pickLoop (e :: rest) = some e := by
  unfold isIconOrWiki at h
  by_cases h1 : strContains e "iconclass.org" = true
  · simp [pickLoop, h1]
  · have h2 : strContains e "wikidata.org" = true := by
      rcases Bool.or_eq_true_iff.mp h with hc | hc
      · exact absurd hc h1
      · exact hc
    simp [pickLoop, h1, h2]

/-- Unfolding lemma: a prefix with no matching equivalent is skipped. -/
theorem pickLoop_append_none (l₁ l₂ : List String)
    (h : ∀ x ∈ l₁, isIconOrWiki x = false) :
    pickLoop (l₁ ++ l₂) = pickLoop l₂ := by
  induction l₁ with
  | nil => rfl
  | cons x xs ih =>
    have hx := h x (by simp)
    unfold isIconOrWiki at hx
    have h1 : strContains x "iconclass.org" = false :=
      (Bool.or_eq_false_iff.mp hx).1
    have h2 : strContains x "wikidata.org" = false :=
      (Bool.or_eq_false_iff.mp hx).2
    simpa [pickLoop, h1, h2] using ih (fun y hy => h y (by simp [hy]))

/-- C3 counterexample: when a Wikidata equivalent precedes an Iconclass
equivalent, the parser keeps the Wikidata URI, so the claimed
Iconclass-first preference does not hold regardless of order. -/
theorem C3_counterexample :
    pickExternalId ["http://www.wikidata.org/entity/Q42", "https://iconclass.org/25F"]
      = some "http://www.wikidata.org/entity/Q42" ∧
    pickExternalId ["http://www.wikidata.org/entity/Q42", "https://iconclass.org/25F"]
      ≠ some "https://iconclass.org/25F" := by
  decide

/-- C3 (amended): the parser scans the equivalents in list order and
chooses the first URI containing `iconclass.org` or `wikidata.org`, with
no preference between the two; when no equivalent matches, the first
equivalent is chosen. -/
theorem C3_amended_first_match (l₁ l₂ : List String) (e : String) :
    ((∀ x ∈ l₁, isIconOrWiki x = false) → isIconOrWiki e = true →
      pickExternalId (l₁ ++ e :: l₂) = some e) ∧
    ((∀ x ∈ l₁, isIconOrWiki x = false) → pickExternalId l₁ = l₁.head?) := by
  constructor
  · intro h he
    unfold pickExternalId
    rw [pickLoop_append_none l₁ (e :: l₂) h, pickLoop_cons_true e l₂ he]
  · intro h
    unfold pickExternalId
    have := pickLoop_append_none l₁ [] h
    rw [List.append_nil] at this
    rw [this]
    rfl

/-- C3 witness: on a concrete equivalents list whose first element
matches nothing, the first Iconclass equivalent is chosen. -/
theorem C3_amended_first_match_witness :
    pickExternalId ["http://example.com/a", "https://iconclass.org/25F"]
      = some "https://iconclass.org/25F" :=
  (C3_amended_first_match ["http://example.com/a"] [] "https://iconclass.org/25F").1
    (by decide) (by decide)

/-! ### Date extraction (C8) -/

/-- C8 counterexample: a timespan whose begin year exceeds its end year
is copied through unchanged, so a Tier-2 row can carry
`date_earliest = 2000 > date_latest = 1990`, violating the claimed
ordering invariant. -/
theorem C8_counterexample :
    extractDates (some "2000-01-01") (some "1990-12-31") = (some 2000, some 1990) ∧
    ¬ ((2000 : Int) ≤ 1990) := by
  decide

/-- C8 (amended): when exactly one of the two timespan bounds parses, the
parsed year is copied to both `date_earliest` and `date_latest`; when
both parse, the pair is exactly the two parsed years, so the ordering
`date_earliest ≤ date_latest` holds precisely when the source timespan
is ordered. -/
theorem C8_amended_dates (b e : Option String) :
    (∀ y, ((extractYearField b = some y ∧ extractYearField e = none) ∨
           (extractYearField e = some y ∧ extractYearField b = none)) →
        extractDates b e = (some y, some y)) ∧
    (∀ y₁ y₂, extractYearField b = some y₁ → extractYearField e = some y₂ →
        extractDates b e = (some y₁, some y₂)) ∧
    (∀ y₁ y₂, extractYearField b = some y₁ → extractYearField e = some y₂ →
        y₁ ≤ y₂ → ∀ z₁ z₂, extractDates b e = (some z₁, some z₂) → z₁ ≤ z₂) := by
  refine ⟨?_, ?_, ?_⟩
  · intro y hy
    rcases hy with ⟨h1, h2⟩ | ⟨h1, h2⟩ <;> simp [extractDates, h1, h2]
  · intro y₁ y₂ h1 h2
    simp [extractDates, h1, h2]
  · intro y₁ y₂ h1 h2 hle z₁ z₂ hz
    simp [extractDates, h1, h2] at hz
    omega

/-- C8 witness: a timespan with only `begin_of_the_begin` populates both
bounds with the parsed year. -/
theorem C8_amended_dates_witness :
    extractDates (some "1650-01-01") none = (some 1650, some 1650) :=
  (C8_amended_dates (some "1650-01-01") none).1 1650 (Or.inl ⟨by decide, rfl⟩)

/-! ### Dimension extraction (C9) -/

/-- C9: a dimension entry whose unit URI is outside the fixed conversion
table falls through with factor 1 and yields the raw parsed value, and
the two-decimal rounding is applied exactly when the factor differs
from 1, so unconverted values are returned unrounded. -/
theorem C9_unknown_unit_raw (d : DimEntry) (rest : List DimEntry)
    (typeUris : List String) (v : ℚ)
    (hv : d.value? = some v)
    (hc : hasClassification d.classifiedAs typeUris = true) :
    (UNIT_TO_CM.find? (fun p => p.1 == d.unitId) = none → unitFactor d.unitId = 1) ∧
    (unitFactor d.unitId = 1 →
      extract_dimension_cm (d :: rest) typeUris = some v) ∧
    (unitFactor d.unitId ≠ 1 →
      extract_dimension_cm (d :: rest) typeUris
        = some (round2 (v * unitFactor d.unitId))) := by
  refine ⟨?_, ?_, ?_⟩
  · intro h
    unfold unitFactor
    rw [h]
  · intro h
    unfold extract_dimension_cm
    rw [hv]
    simp [hc, h]
  · intro h
    unfold extract_dimension_cm
    rw [hv]
    simp [hc, h]

/-- C9 witness: a concrete height entry carrying an inch unit URI, which
is not in the conversion table, is returned as the raw value 21. -/
theorem C9_unknown_unit_raw_witness :
    extract_dimension_cm
      [⟨some 21, [AAT_HEIGHT], "http://vocab.getty.edu/aat/300379101"⟩]
      HEIGHT_URIS = some 21 :=
  (C9_unknown_unit_raw
      ⟨some 21, [AAT_HEIGHT], "http://vocab.getty.edu/aat/300379101"⟩
      [] HEIGHT_URIS 21 rfl (by decide)).2.1 (by decide)

/-! ### Phase 4 handling of HTTP 404 (C1) -/

/-- Creation lemma: a Phase 1 insert satisfies the freshness invariant,
since every Tier-2 column takes its `NULL` schema default. -/
theorem newArtwork_freshInv (objectNumber : String)
    (title creatorLabel rightsUri linkedArtUri : Option String) :
    freshInv (newArtwork objectNumber title creatorLabel rightsUri linkedArtUri) := by
  intro _
  exact ⟨rfl, rfl, rfl, rfl, rfl, rfl, rfl, rfl, rfl, rfl⟩

/-- Preservation lemma: every Phase 4 write preserves the freshness
invariant, because the only statement writing Tier-2 columns also sets
`tier2_done = 1`. -/
theorem applyResolve_freshInv (a : Artwork) (r : ResolveResult)
    (h : freshInv a) : freshInv (applyResolve a r) := by
  cases r with
  | failed => exact h
  | notFound => intro hfalse; cases hfalse
  | ok f => intro hfalse; cases hfalse

/-- C1: a pending artwork (not done, non-empty Linked-Art URI) whose
Tier-2 fetch returns HTTP 404 ends with `tier2_done = true` and all ten
Tier-2 columns `NULL`, and no later Phase 4 run selects it again, since
the pending query keeps only rows with `tier2_done = 0`. -/
theorem C1_404_authoritative (a : Artwork) (hinv : freshInv a)
    (hp : isPending a = true) :
    (applyResolve a .notFound).tier2Done = true ∧
    tier2FieldsNull (applyResolve a .notFound) ∧
    isPending (applyResolve a .notFound) = false ∧
    ∀ rows : List Artwork, applyResolve a .notFound ∉ pendingQuery rows := by
  have hdone : a.tier2Done = false := by
    cases hb : a.tier2Done with
    | false => rfl
    | true => unfold isPending at hp; rw [hb] at hp; simp at hp
  have hnull := hinv hdone
  have hnotPending : isPending (applyResolve a .notFound) = false := by
    unfold isPending applyResolve
    simp
  refine ⟨rfl, ?_, hnotPending, ?_⟩
  · unfold tier2FieldsNull applyResolve at *
    exact hnull
  · intro rows hmem
    have := (List.mem_filter.mp hmem).2
    rw [hnotPending] at this
    cases this

/-- C1 witness: a concrete freshly harvested artwork with a Linked-Art
URI is marked done by a 404 and drops out of the pending query. -/
theorem C1_404_authoritative_witness :
    (applyResolve
        (newArtwork "SK-C-5" none none none (some "https://id.rijksmuseum.nl/200100988"))
        .notFound).tier2Done = true ∧
    isPending
      (applyResolve
        (newArtwork "SK-C-5" none none none (some "https://id.rijksmuseum.nl/200100988"))
        .notFound) = false :=
  ⟨(C1_404_authoritative _ (by decide) (by decide)).1,
   (C1_404_authoritative _ (by decide) (by decide)).2.2.1⟩

/-! ### OAI-PMH retry and checkpoint (C2) -/

/-- C2 counterexample: a page failing on its first three attempts is
fatal even though a fourth attempt would have succeeded, so the third
consecutive failure is already fatal, not the fourth. -/
theorem C2_counterexample :
    fetchOaiPage (fun i => decide (3 ≤ i)) = none ∧
    (fun i => decide (3 ≤ i)) 3 = true := by
  exact ⟨rfl, rfl⟩

/-- C2 (amended): each page fetch is attempted at most three times with
linearly increasing backoff of 5 s then 10 s after the first and second
failures; a third consecutive failure is fatal; a fatal page failure
leaves the checkpoint in its current state, and the checkpoint is
removed on successful completion of the final page. -/
theorem C2_amended_retry_checkpoint :
    (∀ outcome : Nat → Bool,
        outcome 0 = false → outcome 1 = false → outcome 2 = false →
        fetchOaiPage outcome = none ∧ fetchWaits outcome = [5, 10]) ∧
    (∀ outcome : Nat → Bool, ∀ i, i < 3 → outcome i = true →
        (∀ j, j < i → outcome j = false) → fetchOaiPage outcome = some i) ∧
    (∀ rest ck page, runPhase1 (.fatalErr :: rest) ck page = ck) ∧
    (∀ ck page, runPhase1 [.ok none] ck page = none) := by
  refine ⟨?_, ?_, ?_, ?_⟩
  · intro outcome h0 h1 h2
    constructor
    · simp [fetchOaiPage, fetchTry, h0, h1, h2]
    · simp [fetchWaits, h0, h1, backoffWait]
  · intro outcome i hi hsucc hprev
    interval_cases i
    · simp [fetchOaiPage, fetchTry, hsucc]
    · have h0 := hprev 0 (by omega)
      simp [fetchOaiPage, fetchTry, h0, hsucc]
    · have h0 := hprev 0 (by omega)
      have h1 := hprev 1 (by omega)
      simp [fetchOaiPage, fetchTry, h0, h1, hsucc]
  · intro rest ck page
    rfl
  · intro ck page
    rfl

/-- C2 witness: a page succeeding on its second attempt after one failed
attempt is fetched successfully. -/
theorem C2_amended_retry_checkpoint_witness :
    fetchOaiPage (fun i => decide (i = 1)) = some 1 :=
  C2_amended_retry_checkpoint.2.1 (fun i => decide (i = 1)) 1 (by decide)
    (by decide) (by decide)

/-! ### Quantization round trip (C4) -/

/-- Error bound of truncation toward zero. -/
theorem truncInt_err (y : ℚ) : |(truncInt y : ℚ) - y| ≤ 1 := by
  unfold truncInt
  split
  · rw [abs_le]
    constructor
    · have := Int.sub_one_lt_floor y
      linarith
    · have := Int.floor_le y
      linarith
  · rw [abs_le]
    constructor
    · have := Int.le_ceil y
      linarith
    · have := Int.ceil_lt_add_one y
      linarith

/-- C4: for a unit-norm vector, quantizing a component by scaling with
127, clipping to [-127, 127] and truncating to int8, then decoding as
int8 / 127, changes the component by at most 1 / 127. -/
theorem C4_quantization_roundtrip (v : List ℚ) (x : ℚ) (hx : x ∈ v)
    (hnorm : (v.map (fun y => y * y)).sum = 1) :
    |decodeComp (quantizeComp x) - x| ≤ 1 / 127 := by
  have hmem : x * x ∈ v.map (fun y => y * y) := List.mem_map_of_mem _ hx
  have hnn : ∀ y ∈ v.map (fun y => y * y), 0 ≤ y := by
    intro y hy
    obtain ⟨z, _, rfl⟩ := List.mem_map.mp hy
    exact mul_self_nonneg z
  have hsq : x * x ≤ 1 := by
    have := List.single_le_sum hnn _ hmem
    rwa [hnorm] at this
  have habs : |x| ≤ 1 := abs_le_one_iff_mul_self_le_one.mpr hsq
  obtain ⟨hlo, hhi⟩ := abs_le.mp habs
  have hclip : clipQ (x * 127) (-127) 127 = x * 127 := by
    unfold clipQ
    rw [min_eq_left (by nlinarith), max_eq_right (by nlinarith)]
  have hq : quantizeComp x = truncInt (x * 127) := by
    unfold quantizeComp
    rw [hclip]
  rw [hq]
  unfold decodeComp
  have hrw : (truncInt (x * 127) : ℚ) / 127 - x
      = ((truncInt (x * 127) : ℚ) - x * 127) / 127 := by
    ring
  rw [hrw, abs_div]
  have h127 : |(127 : ℚ)| = 127 := by
    rw [abs_of_pos]
    norm_num
  rw [h127]
  have := truncInt_err (x * 127)
  gcongr

/-- C4 witness: the unit vector with components 1, 0, 0 satisfies the
componentwise round-trip bound at its first component. -/
theorem C4_quantization_roundtrip_witness :
    |decodeComp (quantizeComp 1) - 1| ≤ 1 / 127 :=
  C4_quantization_roundtrip [1, 0, 0] 1 (by simp) (by simp)

/-! ### Composite text and embedding skip (C5) -/

/-- C5 counterexample: an artwork whose ten Tier-2 columns are all
`NULL` but whose Phase 1 creator label is set gets the non-empty
composite text "[Creator] Rembrandt van Rijn" and is kept by the
embedding selection, contradicting the claim that its composite text is
empty and that it is skipped. -/
theorem C5_counterexample :
    compositeText ⟨1, "SK-A-1", none, some "Rembrandt van Rijn", none, none, none⟩ []
      = "[Creator] Rembrandt van Rijn" ∧
    "[Creator] Rembrandt van Rijn" ≠ "" ∧
    embedSelect
        [(1, "SK-A-1",
          compositeText ⟨1, "SK-A-1", none, some "Rembrandt van Rijn", none, none, none⟩ [])]
        []
      = [(1, "SK-A-1", "[Creator] Rembrandt van Rijn")] := by
  decide

/-- C5 (amended): when every input of the composite builder is null or
empty, that is the Tier-2 text fields together with the Phase 1 creator
label and the subject labels, the composite text is the empty string and
the artwork is skipped by the embedding selection, so it is neither
encoded nor written to either table. -/
theorem C5_amended_empty_skip (r : ArtTextRow) (subjects : List String)
    (ht : truthy r.titleAllText = none) (hc : truthy r.creatorLabel = none)
    (hs : subjects = []) (hn : truthy r.narrativeText = none)
    (hi : truthy r.inscriptionText = none) (hd : truthy r.descriptionText = none) :
    compositeText r subjects = "" ∧
    ∀ (batch : List (Int × String × String)) (existing : List Int) (i : Int)
      (obj : String), (i, obj, compositeText r subjects) ∉ embedSelect batch existing := by
  have hempty : compositeText r subjects = "" := by
    have hlist : (compositeFields r subjects).filterMap
        (fun lv =>
          match truthy lv.2 with
          | some v => some ("[" ++ lv.1 ++ "] " ++ v)
          | none => none) = [] := by
      rw [List.filterMap_eq_nil_iff]
      intro a ha
      unfold compositeFields at ha
      rw [hs] at ha
      simp only [List.mem_cons, List.not_mem_nil, or_false] at ha
      rcases ha with rfl | rfl | rfl | rfl | rfl | rfl <;>
        first
        | (rw [ht]; try rfl)
        | (rw [hc]; try rfl)
        | (rw [hn]; try rfl)
        | (rw [hi]; try rfl)
        | (rw [hd]; try rfl)
        | rfl
    unfold compositeText
    rw [hlist]
    rfl
  refine ⟨hempty, ?_⟩
  intro batch existing i obj hmem
  rw [hempty] at hmem
  have := (List.mem_filter.mp hmem).2
  simp at this

/-- C5 witness: a concrete row with every composite input absent yields
the empty composite text. -/
theorem C5_amended_empty_skip_witness :
    compositeText ⟨7, "SK-X-1", none, none, none, none, none⟩ [] = "" :=
  (C5_amended_empty_skip ⟨7, "SK-X-1", none, none, none, none, none⟩ []
    rfl rfl rfl rfl rfl rfl).1

/-! ### Normalizer idempotence (C6) -/

/-- C6: on a store that is already normalized, both idempotency guards
fire, so the second normalization run changes neither the schema, nor
the mappings rows, nor the rights encoding, and no orphan drop occurs:
the store is returned unchanged. -/
theorem C6_normalizer_idempotent (s : Store)
    (hm : "artwork_id" ∈ s.mappingsCols) (hr : "rights_id" ∈ s.artworksCols) :
    normalize_mappings s = s ∧ normalize_rights s = s ∧
    normalize_rights (normalize_mappings s) = s := by
  have h1 : normalize_mappings s = s := by
    unfold normalize_mappings
    rw [if_pos hm]
  have h2 : normalize_rights s = s := by
    unfold normalize_rights
    rw [if_pos hr]
  exact ⟨h1, h2, by rw [h1, h2]⟩

/-- Concrete store in the fully normalized shape. -/
def normalizedStoreEx : Store :=
  { artworksCols := ["object_number", "title", "creator_label", "linked_art_uri",
                     "tier2_done", "art_id", "rights_id"]
    mappingsCols := ["artwork_id", "vocab_rowid", "field_id"]
    mappingsText := []
    mappingsInt := [⟨1, 1, 1⟩]
    fieldLookup := [(1, "subject")]
    rightsLookup := [(1, "http://creativecommons.org/publicdomain/zero/1.0/")]
    artworks := [⟨"SK-C-5", 1, some 1, none, some 1⟩]
    vocab := [⟨"22222", 1, some 1⟩] }

/-- C6 witness: a concrete normalized store passes both guards and is
returned unchanged by both normalization passes. -/
theorem C6_normalizer_idempotent_witness :
    normalize_mappings normalizedStoreEx = normalizedStoreEx ∧
    normalize_rights normalizedStoreEx = normalizedStoreEx :=
  ⟨(C6_normalizer_idempotent normalizedStoreEx (by decide) (by decide)).1,
   (C6_normalizer_idempotent normalizedStoreEx (by decide) (by decide)).2.1⟩

/-! ### Reconciliation thresholds (C7) -/

/-- C7: the classification of a scored place equals the decision rule
written in the spec, applied to the top candidate of the
descending-sorted list, its coordinate presence and its runner-up gap;
in particular the thresholds are inclusive, so a top candidate with
score exactly 80, coordinates present and gap exactly 20 is accepted. -/
theorem C7_thresholds (cands : List ScoredCand) (top : ScoredCand)
    (rest : List ScoredCand) (hs : sortDesc cands = top :: rest) :
    classifyCands cands
      = classifySpec top.score top.lat.isSome (gapOf top rest) ∧
    classifySpec 80 true 20 = .accepted := by
  constructor
  · unfold classifyCands
    rw [hs]
    simp only [classifySorted, classifySpec]
    split_ifs <;> first | rfl | tauto
  · decide

/-- C7 witness: a single scored candidate with score exactly 80 and
coordinates present (gap defaulting to 100) is accepted. -/
theorem C7_thresholds_witness :
    classifyCands [⟨80, some 52⟩] = Decision.accepted := by
  have h := (C7_thresholds [⟨80, some 52⟩] ⟨80, some 52⟩ [] rfl).1
  rw [h]
  decide

/-! ### Geocoder write guards (C10) -/

/-- Fixed-point lemma: the guarded coordinate UPDATE leaves a row with a
latitude untouched. -/
theorem updateCoordsRow_fixed (r : PlaceRow) (h : r.lat ≠ none)
    (vid : String) (la lo : ℚ) : updateCoordsRow vid la lo r = r := by
  unfold updateCoordsRow
  rw [if_neg]
  rintro ⟨_, h2⟩
  exact h h2

/-- Fixed-point lemma: the guarded coordinate-and-id UPDATE leaves a row
with a latitude untouched. -/
theorem updateCoordsIdsRow_fixed (r : PlaceRow) (h : r.lat ≠ none)
    (vid : String) (la lo : ℚ) (ext : String) :
    updateCoordsIdsRow vid la lo ext r = r := by
  unfold updateCoordsIdsRow
  rw [if_neg]
  rintro ⟨_, h2⟩
  exact h h2

/-- C10: every geocoder write path guards its UPDATE with
`lat IS NULL`, so a place that already has a latitude keeps its `lat`,
`lon` and `external_id` across any sequence of `update_coords` and
`update_coords_and_ids` calls. -/
theorem C10_geocoded_preserved (r : PlaceRow) (h : r.lat ≠ none) :
    (∀ (vid : String) (la lo : ℚ), updateCoordsRow vid la lo r = r) ∧
    (∀ (vid : String) (la lo : ℚ) (ext : String),
        updateCoordsIdsRow vid la lo ext r = r) ∧
    (∀ (updates : List (String × ℚ × ℚ)) (table : List PlaceRow) (i : Nat),
        table[i]? = some r → (update_coords updates table)[i]? = some r) ∧
    (∀ (updates : List (String × ℚ × ℚ × String)) (table : List PlaceRow) (i : Nat),
        table[i]? = some r → (update_coords_and_ids updates table)[i]? = some r) := by
  refine ⟨updateCoordsRow_fixed r h, updateCoordsIdsRow_fixed r h, ?_, ?_⟩
  · intro updates
    induction updates with
    | nil => intro table i hi; exact hi
    | cons u us ih =>
      intro table i hi
      have hmap : (table.map (updateCoordsRow u.1 u.2.1 u.2.2))[i]? = some r := by
        rw [List.getElem?_map, hi]
        simp [updateCoordsRow_fixed r h]
      exact ih _ i hmap
  · intro updates
    induction updates with
    | nil => intro table i hi; exact hi
    | cons u us ih =>
      intro table i hi
      have hmap :
          (table.map (updateCoordsIdsRow u.1 u.2.1 u.2.2.1 u.2.2.2))[i]? = some r := by
        rw [List.getElem?_map, hi]
        simp [updateCoordsIdsRow_fixed r h]
      exact ih _ i hmap

/-- C10 witness: a concrete already-geocoded place row is untouched by a
coordinate update addressed to its own id. -/
theorem C10_geocoded_preserved_witness :
    updateCoordsRow "13001" 51 5 ⟨"13001", some 52, some 4, none⟩
      = ⟨"13001", some 52, some 4, none⟩ :=
  (C10_geocoded_preserved ⟨"13001", some 52, some 4, none⟩ (by decide)).1 "13001" 51 5

end Rijks
